import Mathlib

/-!
Shallow embedding of `src/index.ts` of the
`threejs-example-instant-tracking-real-time-env-map` repository, together
with theorems settling the specification claims about it.

The program is a single-file browser AR demo.  We embed:

* the observable side effects a run emits (`Effect`),
* the application state (`AppState`): the `hasPlaced` flag, the last
  requested anchor camera offset, the anchor group's children, the
  `tap-to-place` button's DOM status and inline `display` style, the
  renderer's and the ground plane's dimensions, and the loaded model;
* the handlers of the program: the `render` frame loop
  (`renderRun` / `renderOnce`), the place-button click handler
  (`clickHandler`), the GLTF load success and error callbacks
  (`onLoadSuccess`, `onLoadError`), the window resize listener
  (`resizeHandler`), and the top-level bootstrap (`startup`);
* an event-driven small-step semantics (`step`, `run`) interleaving frame
  ticks with the asynchronous callbacks, as the single-threaded event
  queue of the host does.

Numeric scalars are rationals.  Angles are stored in units of pi: the
source writes `gltf.scene.rotation.y = Math.PI / 2.5`, which we record as
the rational coefficient `1 / 2.5` of pi, so that `r * 180` is the angle
in degrees.
-/

/-- Observable side effects of the program, in the order they are issued.
The first five are the delegated calls of one `render` iteration
(`instantTrackerGroup.setAnchorPoseFromCameraOffset`,
`environmentMap.update`, `camera.updateFrame`, `renderer.render`,
`requestAnimationFrame`); the rest are bootstrap and callback effects. -/
inductive Effect where
  | setAnchorPoseFromCameraOffset (x y z : ℚ) : Effect
  | environmentMapUpdate : Effect
  | cameraUpdateFrame : Effect
  | rendererRender : Effect
  | requestAnimationFrame : Effect
  | browserIncompatibleUIShown : Effect
  | rendererConstructed : Effect
  | canvasAppended : Effect
  | cameraConstructed : Effect
  | permissionRequested : Effect
  | modelLoadStarted : Effect
  | lightsAdded : Effect
  | planeAdded : Effect
  | frameLoopStarted : Effect
  | consoleLog (msg : String) : Effect
deriving DecidableEq

/-- Whether an effect is an anchor-pose offset request
(`setAnchorPoseFromCameraOffset`). -/
def Effect.isOffsetRequest : Effect → Bool
  | .setAnchorPoseFromCameraOffset _ _ _ => true
  | _ => false

/-- Whether an effect belongs to the page setup that follows the browser
compatibility check (renderer, canvas, camera, permission flow, loader,
lights, plane, frame loop). -/
def Effect.isSetupEffect : Effect → Bool
  | .rendererConstructed => true
  | .canvasAppended => true
  | .cameraConstructed => true
  | .permissionRequested => true
  | .modelLoadStarted => true
  | .lightsAdded => true
  | .planeAdded => true
  | .frameLoopStarted => true
  | _ => false

/-- The scene-graph hierarchy below the loaded GLTF root, in
first-child / next-sibling form: `node isMesh castShadow children rest`
is a node with its `isMesh` and `castShadow` flags, the forest of its
children, and its following siblings; `nil` ends a sibling list.  This
encodes exactly the rose trees `gltf.scene.traverse` walks. -/
inductive SceneForest where
  | nil : SceneForest
  | node (isMesh castShadow : Bool) (children rest : SceneForest) : SceneForest
deriving DecidableEq

/-- Embedding of the `gltf.scene.traverse` callback of the load success
handler: every node with `isMesh` set gets `castShadow := true`; other
nodes are untouched. -/
def setShadows : SceneForest → SceneForest
  | .nil => .nil
  | .node m c ch rest => .node m (if m then true else c) (setShadows ch) (setShadows rest)

/-- Every mesh node in the forest has shadow casting enabled. -/
def meshesCastShadow : SceneForest → Bool
  | .nil => true
  | .node m c ch rest => (!m || c) && meshesCastShadow ch && meshesCastShadow rest

/-- The state of the loaded model root (`gltf.scene`): its rotation about
the vertical axis as a rational coefficient of pi, its scale on the three
axes, and the node hierarchy below it. -/
structure GltfScene where
  rotationYOverPi : ℚ
  scaleX : ℚ
  scaleY : ℚ
  scaleZ : ℚ
  root : SceneForest
deriving DecidableEq

/-- Children the program ever adds to `instantTrackerGroup`. -/
inductive Child where
  | gltfModel : Child
  | dirLight : Child
  | ambientLight : Child
  | plane : Child
deriving DecidableEq

/-- The mutable state of the program after bootstrap:
`hasPlaced` is the placement flag; `anchorPose` records the last
camera-relative offset requested for the anchor (none before the first
request); `anchorChildren` are the children of `instantTrackerGroup`;
`placeButtonInDocument` says whether the `tap-to-place` element is part
of the document; `placeButtonDisplay` is its inline CSS display value;
`rendererWidth`/`rendererHeight` are the display surface dimensions set
by `renderer.setSize`; `planeWidth`/`planeHeight` are the ground plane's
geometry dimensions fixed at construction; `loadedModel` holds the GLTF
scene once the load succeeded. -/
structure AppState where
  hasPlaced : Bool
  anchorPose : Option (ℚ × ℚ × ℚ)
  anchorChildren : List Child
  placeButtonInDocument : Bool
  placeButtonDisplay : String
  rendererWidth : Int
  rendererHeight : Int
  planeWidth : Int
  planeHeight : Int
  loadedModel : Option GltfScene
deriving DecidableEq

/-- The state right after the compatible-browser bootstrap has run:
flag false, no offset requested yet, the directional light, ambient
light and shadow plane added to the tracker group in source order, the
place button taken from the document when an element with id
`tap-to-place` exists there (`docHasTapToPlace`) and otherwise a fresh
detached `div`, renderer sized and plane geometry built from the
viewport `w × h`, no model loaded.  The button's initial display value:
the inline style is untouched by the code before the load callback;
`Modelled from the spec:` the stylesheet (not under `src/`) keeps the
control hidden until the success callback reveals it, so the initial
display is `"none"`. -/
def initialState (docHasTapToPlace : Bool) (w h : Int) : AppState :=
  { hasPlaced := false
    anchorPose := none
    anchorChildren := [Child.dirLight, Child.ambientLight, Child.plane]
    placeButtonInDocument := docHasTapToPlace
    placeButtonDisplay := "none"
    rendererWidth := w
    rendererHeight := h
    planeWidth := w
    planeHeight := h
    loadedModel := none }

/-- Embedding of the `placeButton` click listener: set `hasPlaced` to
true and remove the button from the document (`placeButton.remove()`;
removing an already detached element is a no-op, which the field update
to `false` reflects).  The handler is a total function: it cannot
throw. -/
def clickHandler (s : AppState) : AppState :=
  { s with hasPlaced := true, placeButtonInDocument := false }

/-- Embedding of the window `resize` listener: it calls only
`renderer.setSize(window.innerWidth, window.innerHeight)`, so exactly
the renderer dimensions change. -/
def resizeHandler (w h : Int) (s : AppState) : AppState :=
  { s with rendererWidth := w, rendererHeight := h }

/-- Processing the loaded `gltf.scene` in the success callback:
`rotation.y = Math.PI / 2.5` (stored as the coefficient `1 / 2.5` of
pi), `scale.multiplyScalar(1.2)`, and the `traverse` marking every mesh
a shadow caster. -/
def processModel (g : GltfScene) : GltfScene :=
  { rotationYOverPi := 1 / 2.5
    scaleX := g.scaleX * 1.2
    scaleY := g.scaleY * 1.2
    scaleZ := g.scaleZ * 1.2
    root := setShadows g.root }

/-- Embedding of the GLTF load success callback: show the placement
button (`placeButton.style.display = 'block'`), process the model
(rotation, scale, shadow flags), and add its root to
`instantTrackerGroup`. -/
def onLoadSuccess (g : GltfScene) (s : AppState) : AppState :=
  { s with
    placeButtonDisplay := "block"
    loadedModel := some (processModel g)
    anchorChildren := s.anchorChildren ++ [Child.gltfModel] }

/-- Embedding of the GLTF load error callback: it only logs; the state
is returned unchanged and the error channel is `none` (the callback
cannot fail and does not terminate the program). -/
def onLoadError (s : AppState) : AppState × List Effect × Option String :=
  (s, [Effect.consoleLog "An error ocurred loading the GLTF model"], none)

/-- Success flags for the four delegated calls of one `render`
iteration; a `false` field means that call throws when reached. -/
structure DelegateOutcome where
  anchorOk : Bool
  envOk : Bool
  camOk : Bool
  renderOk : Bool
deriving DecidableEq

/-- The outcome in which every delegated call succeeds. -/
def allOk : DelegateOutcome := ⟨true, true, true, true⟩

/-- Embedding of the `render` function, one iteration, with explicit
failure propagation.  The statements run in source order:
`setAnchorPoseFromCameraOffset(0, 0, -2)` when `hasPlaced` is false,
then `environmentMap.update`, `camera.updateFrame`, `renderer.render`,
and finally `requestAnimationFrame(render)`.  A delegated call is issued
(its effect emitted) and, if it throws, the remaining statements do not
run and the exception surfaces on the error channel — there is no
`try`/`catch` in `render`. -/
def renderRun (oc : DelegateOutcome) (s : AppState) : AppState × List Effect × Option String :=
  let s1 := if s.hasPlaced then s else { s with anchorPose := some (0, 0, -2) }
  let t1 : List Effect :=
    if s.hasPlaced then [] else [Effect.setAnchorPoseFromCameraOffset 0 0 (-2)]
  if !s.hasPlaced && !oc.anchorOk then
    (s1, t1, some "setAnchorPoseFromCameraOffset threw")
  else
    let t2 := t1 ++ [Effect.environmentMapUpdate]
    if !oc.envOk then (s1, t2, some "environmentMap.update threw")
    else
      let t3 := t2 ++ [Effect.cameraUpdateFrame]
      if !oc.camOk then (s1, t3, some "camera.updateFrame threw")
      else
        let t4 := t3 ++ [Effect.rendererRender]
        if !oc.renderOk then (s1, t4, some "renderer.render threw")
        else (s1, t4 ++ [Effect.requestAnimationFrame], none)

/-- One successful `render` iteration: `renderRun` with every delegated
call succeeding, projected to state and trace. -/
def renderOnce (s : AppState) : AppState × List Effect :=
  ((renderRun allOk s).1, (renderRun allOk s).2.1)

/-- Embedding of the top-level bootstrap.  When
`ZapparThree.browserIncompatible()` holds, the incompatibility UI is
shown and `throw new Error('Unsupported browser')` aborts the module, so
none of the remaining setup runs; otherwise the whole page setup runs in
source order and ends with the first `render()` call starting the frame
loop. -/
def startup (incompatible docHasTapToPlace : Bool) (w h : Int) :
    List Effect × Except String AppState :=
  if incompatible then
    ([Effect.browserIncompatibleUIShown], Except.error "Unsupported browser")
  else
    ([Effect.rendererConstructed, Effect.canvasAppended, Effect.cameraConstructed,
      Effect.permissionRequested, Effect.modelLoadStarted, Effect.lightsAdded,
      Effect.planeAdded, Effect.frameLoopStarted],
      Except.ok (initialState docHasTapToPlace w h))

/-- Events the single-threaded event queue can deliver after bootstrap:
a display-refresh frame tick (one successful `render` iteration), a tap
on the place button, the asynchronous GLTF load callbacks, and a window
resize. -/
inductive Event where
  | frame : Event
  | tap : Event
  | loadSuccess (g : GltfScene) : Event
  | loadFailure : Event
  | resize (w h : Int) : Event
deriving DecidableEq

/-- Dispatch one event to its handler, returning the new state and the
effects the handler issued. -/
def step (s : AppState) : Event → AppState × List Effect
  | .frame => renderOnce s
  | .tap => (clickHandler s, [])
  | .loadSuccess g => (onLoadSuccess g s, [])
  | .loadFailure => ((onLoadError s).1, (onLoadError s).2.1)
  | .resize w h => (resizeHandler w h s, [])

/-- Run a sequence of events from a state, concatenating the emitted
effect traces; events are processed one at a time, matching the
cooperative single-threaded queue. -/
def run (s : AppState) : List Event → AppState × List Effect
  | [] => (s, [])
  | e :: es =>
    let r1 := step s e
    let r2 := run r1.1 es
    (r2.1, r1.2 ++ r2.2)

/-- Whether the place button is a visible part of the document: it is in
the DOM and its display style is `block`. -/
def placeButtonVisibleInDocument (s : AppState) : Bool :=
  s.placeButtonInDocument && (s.placeButtonDisplay == "block")

/-- Sample application state for witnesses. -/
def sampleState : AppState := initialState true 320 480

/-- Sample loaded-model input for witnesses: one mesh root with a
non-mesh child. -/
def sampleModel : GltfScene :=
  { rotationYOverPi := 0
    scaleX := 1
    scaleY := 1
    scaleZ := 1
    root := SceneForest.node true false (SceneForest.node false false .nil .nil) .nil }

/-! ## Helper lemmas -/

/-- After the traversal of the success callback every mesh node casts a
shadow. -/
theorem meshesCastShadow_setShadows (t : SceneForest) :
    meshesCastShadow (setShadows t) = true := by
  induction t with
  | nil => rfl
  | node m c ch rest ih1 ih2 =>
    cases m <;> simp [setShadows, meshesCastShadow, ih1, ih2]

/-- A step never turns the `hasPlaced` flag off. -/
theorem step_hasPlaced_mono (s : AppState) (e : Event) (h : s.hasPlaced = true) :
    ((step s e).1).hasPlaced = true := by
  cases e <;>
    simp [step, clickHandler, onLoadSuccess, onLoadError, resizeHandler,
      renderOnce, renderRun, allOk, h]

/-- Once the flag is set, a step emits no anchor-offset request. -/
theorem step_no_offset_of_placed (s : AppState) (e : Event) (h : s.hasPlaced = true) :
    ((step s e).2).countP (fun x => Effect.isOffsetRequest x) = 0 := by
  cases e <;>
    simp [step, clickHandler, onLoadSuccess, onLoadError, resizeHandler,
      renderOnce, renderRun, allOk, h, Effect.isOffsetRequest]

/-- Once the flag is set, no later event sequence emits an anchor-offset
request. -/
theorem run_no_offset_of_placed (s : AppState) (evs : List Event) (h : s.hasPlaced = true) :
    ((run s evs).2).countP (fun x => Effect.isOffsetRequest x) = 0 := by
  induction evs generalizing s with
  | nil => simp [run]
  | cons e es ih =>
    simp [run, List.countP_append, step_no_offset_of_placed s e h,
      ih (step s e).1 (step_hasPlaced_mono s e h)]

/-! ## Claim theorems -/

/-- C1: in every frame iteration with `hasPlaced = false` the anchor's
position is requested exactly once, as the constant camera-relative
offset `(0, 0, -2)`, and the request is recorded as the anchor's pose;
with `hasPlaced = true` no offset request is issued and the state, the
anchor pose included, is left unchanged. -/
theorem render_unplaced_offset_request (s : AppState) :
    (s.hasPlaced = false →
      ((renderOnce s).2).countP (fun x => Effect.isOffsetRequest x) = 1
      ∧ Effect.setAnchorPoseFromCameraOffset 0 0 (-2) ∈ (renderOnce s).2
      ∧ (renderOnce s).1 = { s with anchorPose := some (0, 0, -2) })
    ∧ (s.hasPlaced = true →
      ((renderOnce s).2).countP (fun x => Effect.isOffsetRequest x) = 0
      ∧ (renderOnce s).1 = s) := by
  cases h : s.hasPlaced <;>
    simp [renderOnce, renderRun, allOk, h, Effect.isOffsetRequest]

/-- Witness for C1 at concrete states: the initial state requests the
offset, and after a tap no offset request is counted. -/
theorem render_unplaced_offset_request_witness :
    Effect.setAnchorPoseFromCameraOffset 0 0 (-2) ∈ (renderOnce sampleState).2
    ∧ ((renderOnce (clickHandler sampleState)).2).countP
        (fun x => Effect.isOffsetRequest x) = 0 :=
  ⟨((render_unplaced_offset_request sampleState).1 (by decide)).2.1,
    ((render_unplaced_offset_request (clickHandler sampleState)).2 (by decide)).1⟩

/-- C3: one frame iteration issues its effects in exactly the order:
optional anchor-offset request, environment-map update, camera frame
update, scene render, and finally the scheduling of the next iteration,
which is the last effect of the iteration. -/
theorem render_step_order (s : AppState) :
    (renderOnce s).2 =
      (if s.hasPlaced then [] else [Effect.setAnchorPoseFromCameraOffset 0 0 (-2)]) ++
        [Effect.environmentMapUpdate, Effect.cameraUpdateFrame,
          Effect.rendererRender, Effect.requestAnimationFrame]
    ∧ ((renderOnce s).2).getLast? = some Effect.requestAnimationFrame := by
  cases h : s.hasPlaced <;> simp [renderOnce, renderRun, allOk, h]

/-- C5: the load success callback sets the button's display to `block`,
stores the processed model, whose rotation about the vertical axis is
`pi / 2.5` radians, i.e. 72 degrees, whose scale is the input scale
multiplied by `1.2` on every axis, and in whose hierarchy every mesh
node casts shadows; and it appends the model root to the anchor group's
children, so a group that did not contain it before contains it exactly
once afterwards. -/
theorem load_success_configures_model (g : GltfScene) (s : AppState) :
    (onLoadSuccess g s).placeButtonDisplay = "block"
    ∧ (onLoadSuccess g s).loadedModel = some (processModel g)
    ∧ (processModel g).rotationYOverPi * 180 = 72
    ∧ (processModel g).scaleX = g.scaleX * 1.2
    ∧ (processModel g).scaleY = g.scaleY * 1.2
    ∧ (processModel g).scaleZ = g.scaleZ * 1.2
    ∧ meshesCastShadow (processModel g).root = true
    ∧ (onLoadSuccess g s).anchorChildren = s.anchorChildren ++ [Child.gltfModel]
    ∧ (s.anchorChildren.count Child.gltfModel = 0 →
        ((onLoadSuccess g s).anchorChildren).count Child.gltfModel = 1) := by
  refine ⟨rfl, rfl, by norm_num [processModel], rfl, rfl, rfl,
    meshesCastShadow_setShadows g.root, rfl, ?_⟩
  intro h
  simp [onLoadSuccess, List.count_append, h]

/-- Witness for C5 at a concrete model and the initial state: the model
root ends up in the anchor group exactly once. -/
theorem load_success_configures_model_witness :
    ((onLoadSuccess sampleModel sampleState).anchorChildren).count Child.gltfModel = 1 :=
  (load_success_configures_model sampleModel sampleState).2.2.2.2.2.2.2.2 (by decide)

/-- C6: the load error callback only logs: the state is returned
unchanged (in particular the anchor group's children), no error is
raised, and a hidden placement control stays hidden. -/
theorem load_error_reports_only (s : AppState) :
    (onLoadError s).1 = s
    ∧ (onLoadError s).2.1 = [Effect.consoleLog "An error ocurred loading the GLTF model"]
    ∧ (onLoadError s).2.2 = none
    ∧ ((onLoadError s).1).anchorChildren = s.anchorChildren
    ∧ (placeButtonVisibleInDocument s = false →
        placeButtonVisibleInDocument (onLoadError s).1 = false) :=
  ⟨rfl, rfl, rfl, rfl, fun h => h⟩

/-- Witness for C6 at the initial state: the control stays invisible
after a failed load. -/
theorem load_error_reports_only_witness :
    placeButtonVisibleInDocument (onLoadError sampleState).1 = false :=
  (load_error_reports_only sampleState).2.2.2.2 (by decide)

/-- C7: the click handler is idempotent: a second invocation leaves the
state exactly as after the first, the flag stays true, and the handler
is a total function (removing the already removed control is a no-op),
so it cannot throw. -/
theorem click_handler_idempotent (s : AppState) :
    clickHandler (clickHandler s) = clickHandler s
    ∧ (clickHandler s).hasPlaced = true
    ∧ (clickHandler (clickHandler s)).hasPlaced = true
    ∧ (clickHandler (clickHandler s)).placeButtonInDocument = false :=
  ⟨rfl, rfl, rfl, rfl⟩

/-- C9: the resize listener sets the renderer's display surface to
exactly `w × h` and changes nothing else; in particular the ground
plane's geometry keeps its startup dimensions. -/
theorem resize_sets_surface_exactly (w h : Int) (s : AppState) :
    resizeHandler w h s = { s with rendererWidth := w, rendererHeight := h }
    ∧ (resizeHandler w h s).rendererWidth = w
    ∧ (resizeHandler w h s).rendererHeight = h
    ∧ (resizeHandler w h s).planeWidth = s.planeWidth
    ∧ (resizeHandler w h s).planeHeight = s.planeHeight :=
  ⟨rfl, rfl, rfl, rfl, rfl⟩

/-- C8: with an incompatible browser, startup emits exactly the
full-page incompatibility notice and then raises, so no setup effect is
issued; with a compatible browser the setup does run. -/
theorem startup_incompatible_aborts (b : Bool) (w h : Int) :
    (startup true b w h).1 = [Effect.browserIncompatibleUIShown]
    ∧ (startup true b w h).2 = Except.error "Unsupported browser"
    ∧ ((startup true b w h).1).countP (fun x => Effect.isSetupEffect x) = 0
    ∧ ((startup false b w h).1).countP (fun x => Effect.isSetupEffect x) = 8 := by
  refine ⟨rfl, rfl, by simp [startup, Effect.isSetupEffect], by rfl⟩

/-- One frame iteration only updates the anchor pose, and only while the
flag is unset. -/
theorem renderOnce_state (s : AppState) :
    (renderOnce s).1 = if s.hasPlaced then s else { s with anchorPose := some (0, 0, -2) } := by
  cases h : s.hasPlaced <;> simp [renderOnce, renderRun, allOk, h]

/-- No event puts a detached place button back into the document. -/
theorem step_detached (s : AppState) (e : Event) (h : s.placeButtonInDocument = false) :
    ((step s e).1).placeButtonInDocument = false := by
  cases e with
  | frame =>
    simp only [step, renderOnce_state]
    split <;> simp [h]
  | tap => simp [step, clickHandler]
  | loadSuccess g => simp [step, onLoadSuccess, h]
  | loadFailure => simp [step, onLoadError, h]
  | resize w hh => simp [step, resizeHandler, h]

/-- A detached place button stays detached along any event sequence. -/
theorem run_detached (s : AppState) (evs : List Event) (h : s.placeButtonInDocument = false) :
    ((run s evs).1).placeButtonInDocument = false := by
  induction evs generalizing s with
  | nil => simpa [run] using h
  | cons e es ih => simpa [run] using ih (step s e).1 (step_detached s e h)

/-- Only the tap event can set the flag. -/
theorem step_hasPlaced_stays_false (s : AppState) (e : Event)
    (h : s.hasPlaced = false) (hne : e ≠ Event.tap) :
    ((step s e).1).hasPlaced = false := by
  cases e with
  | frame =>
    simp only [step, renderOnce_state]
    split <;> simp [h]
  | tap => exact absurd rfl hne
  | loadSuccess g => simp [step, onLoadSuccess, h]
  | loadFailure => simp [step, onLoadError, h]
  | resize w hh => simp [step, resizeHandler, h]

/-- Without a tap event the flag stays false along any event sequence. -/
theorem run_hasPlaced_stays_false (s : AppState) (evs : List Event)
    (h : s.hasPlaced = false) (hnt : Event.tap ∉ evs) :
    ((run s evs).1).hasPlaced = false := by
  induction evs generalizing s with
  | nil => simpa [run] using h
  | cons e es ih =>
    simp only [List.mem_cons, not_or] at hnt
    simpa [run] using
      ih (step s e).1 (step_hasPlaced_stays_false s e h (fun he => hnt.1 he.symm)) hnt.2

/-- C2: the flag starts false, the tap handler sets it to true, no event
ever resets it, and from any state reached by the tap handler no later
event sequence issues a forward-offset anchor position request: the
transition is terminal. -/
theorem placement_transition_terminal :
    (∀ (b : Bool) (w h : Int), (initialState b w h).hasPlaced = false)
    ∧ (∀ s : AppState, (clickHandler s).hasPlaced = true)
    ∧ (∀ (s : AppState) (e : Event), s.hasPlaced = true → ((step s e).1).hasPlaced = true)
    ∧ (∀ (s : AppState) (evs : List Event),
        ((run (clickHandler s) evs).2).countP (fun x => Effect.isOffsetRequest x) = 0) :=
  ⟨fun _ _ _ => rfl, fun _ => rfl, step_hasPlaced_mono,
    fun s evs => run_no_offset_of_placed (clickHandler s) evs rfl⟩

/-- Witness for C2 at a concrete state and event sequence: the flag
survives a frame step after the tap, and three post-tap events emit no
offset request. -/
theorem placement_transition_terminal_witness :
    ((step (clickHandler sampleState) Event.frame).1).hasPlaced = true
    ∧ ((run (clickHandler sampleState) [Event.frame, Event.loadFailure, Event.frame]).2).countP
        (fun x => Effect.isOffsetRequest x) = 0 :=
  ⟨placement_transition_terminal.2.2.1 (clickHandler sampleState) Event.frame (by decide),
    placement_transition_terminal.2.2.2 sampleState [Event.frame, Event.loadFailure, Event.frame]⟩

/-- C4 counterexample: in the initial state, when `environmentMap.update`
throws, the iteration surfaces the failure and `requestAnimationFrame`
is never issued — the loop does not schedule the next iteration after a
failed one, contrary to the claim that it always does. -/
theorem render_failure_counterexample :
    (renderRun ⟨true, false, true, true⟩ sampleState).2.2 = some "environmentMap.update threw"
    ∧ Effect.requestAnimationFrame ∉ (renderRun ⟨true, false, true, true⟩ sampleState).2.1 := by
  decide

/-- C4 amended: a frame iteration issues each delegated call at most
once (no retry), a failure propagates to the caller of the scheduling
primitive, and the next iteration is scheduled exactly when no delegated
call fails, as the last action of the iteration. -/
theorem render_failure_no_reschedule (oc : DelegateOutcome) (s : AppState) :
    ((renderRun oc s).2.2 = none ↔
        Effect.requestAnimationFrame ∈ (renderRun oc s).2.1)
    ∧ ((renderRun oc s).2.1).Nodup
    ∧ ((renderRun oc s).2.2 = none →
        ((renderRun oc s).2.1).getLast? = some Effect.requestAnimationFrame) := by
  obtain ⟨a, e, c, r⟩ := oc
  cases h : s.hasPlaced <;> cases a <;> cases e <;> cases c <;> cases r <;>
    simp [renderRun, h]

/-- Witness for C4 at the all-success outcome: no failure is reported
and the iteration ends by scheduling the next one. -/
theorem render_failure_no_reschedule_witness :
    ((renderRun allOk sampleState).2.1).getLast? = some Effect.requestAnimationFrame :=
  (render_failure_no_reschedule allOk sampleState).2.2 (by decide)

/-- C10: when no `tap-to-place` element exists at startup, the
substituted fresh `div` is never part of the document along any event
sequence, so the placement control is never visible in the document; the
load success callback still sets its display to `block` but leaves it
detached; and without a tap event — which the invisible control cannot
produce through the UI — the placement flag stays false. -/
theorem missing_button_stays_detached (w h : Int) (evs : List Event) :
    ((run (initialState false w h) evs).1).placeButtonInDocument = false
    ∧ placeButtonVisibleInDocument (run (initialState false w h) evs).1 = false
    ∧ (∀ (g : GltfScene) (s : AppState), s.placeButtonInDocument = false →
        (onLoadSuccess g s).placeButtonInDocument = false
        ∧ (onLoadSuccess g s).placeButtonDisplay = "block")
    ∧ (Event.tap ∉ evs → ((run (initialState false w h) evs).1).hasPlaced = false) := by
  have hd := run_detached (initialState false w h) evs rfl
  exact ⟨hd, by simp [placeButtonVisibleInDocument, hd],
    fun g s hs => ⟨hs, rfl⟩,
    fun hnt => run_hasPlaced_stays_false (initialState false w h) evs rfl hnt⟩

/-- Witness for C10 at a concrete tap-free event sequence containing a
successful load: the control stays invisible and the flag stays
false. -/
theorem missing_button_stays_detached_witness :
    placeButtonVisibleInDocument
        (run (initialState false 320 480) [Event.loadSuccess sampleModel, Event.frame]).1 = false
    ∧ ((run (initialState false 320 480)
          [Event.loadSuccess sampleModel, Event.frame]).1).hasPlaced = false :=
  ⟨(missing_button_stays_detached 320 480 [Event.loadSuccess sampleModel, Event.frame]).2.1,
    (missing_button_stays_detached 320 480 [Event.loadSuccess sampleModel, Event.frame]).2.2.2
      (by decide)⟩
